import Mathlib

/-!
# Verification of the streamlit-tutorial dashboards

Shallow embedding of the data-handling logic of the tutorial scripts:
tables are lists of records, pandas boolean masks are `Bool`-valued
predicates, `df.loc[mask]` is `List.filter`, `groupby/agg` is an
association-list grouping followed by per-group aggregation, and the
framework's per-session key-value store is explicit state threaded
through step functions.
-/

namespace StreamlitTutorial

/- Batteries marks rational arithmetic `@[irreducible]`, which blocks
`decide`-style evaluation of the concrete witnesses below; re-marking it
semireducible restores evaluation (the kernel is unaffected by
reducibility attributes). -/
attribute [local semireducible] Rat.add Rat.mul Rat.inv Rat.sub

/-- A row of the synthetic dataset used by the three filter pages
(`tutorial/filters/pages/*`): a date (encoded as a day number), a
category label and a numeric value. -/
structure Row where
  date : Int
  category : String
  value : Rat
  deriving DecidableEq, Repr

/-- The boolean mask of `1_Intro_to_Filters.py` (lines 81-98): start from
an all-`True` series, conjoin the category-membership test only when the
selection is non-empty, then the inclusive date-range test, then the
inclusive value-range test. -/
def maskIntro (selected_cats : List String) (start_ts end_ts : Int)
    (low high : Rat) (r : Row) : Bool :=
  let m := true
  let m := if selected_cats ≠ [] then m && selected_cats.contains r.category else m
  let m := m && (decide (start_ts ≤ r.date) && decide (r.date ≤ end_ts))
  m && (decide (low ≤ r.value) && decide (r.value ≤ high))

/-- `filtered = df.loc[mask].copy()` of `1_Intro_to_Filters.py` line 100. -/
def filteredIntro (df : List Row) (selected_cats : List String)
    (start_ts end_ts : Int) (low high : Rat) : List Row :=
  df.filter (maskIntro selected_cats start_ts end_ts low high)

/-- The applied-filter record kept in the session store under
`"applied_filters"` by `2_form_based_filters.py`. -/
structure Filters where
  cats : List String
  start : Int
  stop : Int
  low : Rat
  high : Rat
  deriving DecidableEq, Repr

/-- The boolean mask of `2_form_based_filters.py` (lines 131-136), built
from the last applied filter values. -/
def maskForm (applied_vals : Filters) (r : Row) : Bool :=
  let m := true
  let m := if applied_vals.cats ≠ [] then m && applied_vals.cats.contains r.category else m
  let m := m && (decide (applied_vals.start ≤ r.date) && decide (r.date ≤ applied_vals.stop))
  m && (decide (applied_vals.low ≤ r.value) && decide (r.value ≤ applied_vals.high))

/-- `filtered = df.loc[mask].copy()` of `2_form_based_filters.py` line 138. -/
def filteredForm (df : List Row) (applied_vals : Filters) : List Row :=
  df.filter (maskForm applied_vals)

/-- Predicate written from the specification's words for the filter
pages: the row's category is in the selected categories whenever the
selection is non-empty, the row's date lies between the applied start and
end dates inclusive, and the row's value lies between the applied low and
high bounds inclusive. Used to compare the code's mask against the
claimed semantics. -/
def filterClaimPred (selected_cats : List String) (start_ts end_ts : Int)
    (low high : Rat) (r : Row) : Prop :=
  (selected_cats ≠ [] → r.category ∈ selected_cats) ∧
    (start_ts ≤ r.date ∧ r.date ≤ end_ts) ∧ (low ≤ r.value ∧ r.value ≤ high)

instance (selected_cats : List String) (start_ts end_ts : Int)
    (low high : Rat) (r : Row) :
    Decidable (filterClaimPred selected_cats start_ts end_ts low high r) := by
  unfold filterClaimPred; infer_instance

theorem maskIntro_eq_claimPred (selected_cats : List String)
    (start_ts end_ts : Int) (low high : Rat) (r : Row) :
    maskIntro selected_cats start_ts end_ts low high r =
      decide (filterClaimPred selected_cats start_ts end_ts low high r) := by
  unfold maskIntro filterClaimPred
  by_cases hc : selected_cats = []
  · subst hc; simp
  · simp [hc]
    by_cases h1 : r.category ∈ selected_cats <;>
      by_cases h2 : start_ts ≤ r.date <;>
      by_cases h3 : r.date ≤ end_ts <;>
      by_cases h4 : low ≤ r.value <;>
      by_cases h5 : r.value ≤ high <;>
      simp [h1, h2, h3, h4, h5]

theorem maskForm_eq_claimPred (f : Filters) (r : Row) :
    maskForm f r = decide (filterClaimPred f.cats f.start f.stop f.low f.high r) :=
  maskIntro_eq_claimPred f.cats f.start f.stop f.low f.high r

/-- C1: For the filter pages, the filtered table equals exactly the rows
of the source table satisfying the conjunction of the three predicates
built from the widget values: when the category selection is non-empty
the row's category is in the selected categories, the row's date lies
between the applied start and end dates (inclusive), and the row's value
lies between the applied low and high bounds (inclusive); every row of
the filtered table satisfies all three, and every source row satisfying
all three appears in the filtered table. -/
theorem filtered_eq_rows_satisfying_conjunction :
    (∀ (df : List Row) (cats : List String) (s e : Int) (lo hi : Rat),
      filteredIntro df cats s e lo hi =
        df.filter (fun r => decide (filterClaimPred cats s e lo hi r)) ∧
      ∀ r : Row, r ∈ filteredIntro df cats s e lo hi ↔
        r ∈ df ∧ filterClaimPred cats s e lo hi r) ∧
    (∀ (df : List Row) (f : Filters),
      filteredForm df f =
        df.filter (fun r => decide (filterClaimPred f.cats f.start f.stop f.low f.high r)) ∧
      ∀ r : Row, r ∈ filteredForm df f ↔
        r ∈ df ∧ filterClaimPred f.cats f.start f.stop f.low f.high r) := by
  constructor
  · intro df cats s e lo hi
    have heq : filteredIntro df cats s e lo hi =
        df.filter (fun r => decide (filterClaimPred cats s e lo hi r)) := by
      unfold filteredIntro
      exact List.filter_congr (fun r _ => maskIntro_eq_claimPred cats s e lo hi r)
    refine ⟨heq, fun r => ?_⟩
    rw [heq, List.mem_filter]
    simp
  · intro df f
    have heq : filteredForm df f =
        df.filter (fun r => decide (filterClaimPred f.cats f.start f.stop f.low f.high r)) := by
      unfold filteredForm
      exact List.filter_congr (fun r _ => maskForm_eq_claimPred f r)
    refine ⟨heq, fun r => ?_⟩
    rw [heq, List.mem_filter]
    simp

/-- The sales-tab local filter values of `3_Filter_Placement_Patterns.py`
(session key `"sales_filters"`): category list and value bounds. -/
structure SalesFilters where
  cats : List String
  low : Rat
  high : Rat
  deriving DecidableEq, Repr

/-- The local sales mask of `3_Filter_Placement_Patterns.py` (lines
135-138): category membership only when the local selection is
non-empty, then the inclusive value-range test, applied on top of the
globally date-filtered frame. -/
def sMask (s_vals : SalesFilters) (r : Row) : Bool :=
  let m := true
  let m := if s_vals.cats ≠ [] then m && s_vals.cats.contains r.category else m
  m && (decide (s_vals.low ≤ r.value) && decide (r.value ≤ s_vals.high))

/-- `sales_filtered = sales_global.loc[s_mask].copy()` of
`3_Filter_Placement_Patterns.py` line 139. -/
def salesFiltered (sales_global : List Row) (s_vals : SalesFilters) : List Row :=
  sales_global.filter (sMask s_vals)

/-- C9: When the category (or warehouse) selection is empty, the
membership predicate is skipped entirely and the filter mask imposes no
restriction on that column: the filtered table then contains the rows of
every category that satisfy the remaining date and value predicates,
rather than being empty. -/
theorem empty_selection_imposes_no_category_restriction :
    (∀ (df : List Row) (s e : Int) (lo hi : Rat) (r : Row),
      r ∈ filteredIntro df [] s e lo hi ↔
        r ∈ df ∧ (s ≤ r.date ∧ r.date ≤ e) ∧ (lo ≤ r.value ∧ r.value ≤ hi)) ∧
    (∀ (df : List Row) (f : Filters), f.cats = [] →
      ∀ r : Row, r ∈ filteredForm df f ↔
        r ∈ df ∧ (f.start ≤ r.date ∧ r.date ≤ f.stop) ∧
          (f.low ≤ r.value ∧ r.value ≤ f.high)) ∧
    (∀ (sales_global : List Row) (v : SalesFilters), v.cats = [] →
      ∀ r : Row, r ∈ salesFiltered sales_global v ↔
        r ∈ sales_global ∧ (v.low ≤ r.value ∧ r.value ≤ v.high)) := by
  refine ⟨?_, ?_, ?_⟩
  · intro df s e lo hi r
    unfold filteredIntro maskIntro
    rw [List.mem_filter]
    simp
  · intro df f hc r
    unfold filteredForm maskForm
    rw [List.mem_filter]
    simp [hc]
  · intro sales_global v hc r
    unfold salesFiltered sMask
    rw [List.mem_filter]
    simp [hc]

/-- Concrete instantiation of
`empty_selection_imposes_no_category_restriction` at an empty category
selection over a two-row table. -/
theorem empty_selection_imposes_no_category_restriction_witness :
    (Filters.mk [] 0 10 0 10).cats = [] ∧
      ((⟨20, "Beta", 5⟩ : Row) ∈
          filteredForm [⟨1, "Alpha", 5⟩, ⟨20, "Beta", 5⟩] (Filters.mk [] 0 10 0 10) ↔
        (⟨20, "Beta", 5⟩ : Row) ∈ ([⟨1, "Alpha", 5⟩, ⟨20, "Beta", 5⟩] : List Row) ∧
          ((0 : Int) ≤ (20 : Int) ∧ (20 : Int) ≤ 10) ∧
          ((0 : Rat) ≤ 5 ∧ (5 : Rat) ≤ 10)) :=
  ⟨rfl, empty_selection_imposes_no_category_restriction.2.1
    [⟨1, "Alpha", 5⟩, ⟨20, "Beta", 5⟩] (Filters.mk [] 0 10 0 10) rfl ⟨20, "Beta", 5⟩⟩

/-! ## Form page session-state discipline (`2_form_based_filters.py`) -/

/-- Minimum of an integer column, as `df["date"].min()` on a non-empty
column (the page's synthetic dataset is never empty). -/
def colMinInt (l : List Int) : Int :=
  match l with
  | [] => 0
  | x :: xs => xs.foldl min x

/-- Maximum of an integer column, as `df["date"].max()`. -/
def colMaxInt (l : List Int) : Int :=
  match l with
  | [] => 0
  | x :: xs => xs.foldl max x

/-- Minimum of a numeric column, as `df["value"].min()`. -/
def colMinRat (l : List Rat) : Rat :=
  match l with
  | [] => 0
  | x :: xs => xs.foldl min x

/-- Maximum of a numeric column, as `df["value"].max()`. -/
def colMaxRat (l : List Rat) : Rat :=
  match l with
  | [] => 0
  | x :: xs => xs.foldl max x

/-- `sorted(df["category"].unique().tolist())` of
`2_form_based_filters.py` line 66. -/
def allCategories (df : List Row) : List String :=
  ((df.map Row.category).dedup).insertionSort (· ≤ ·)

/-- `default_filters` of `2_form_based_filters.py` lines 69-75: all
categories, the full date range and the full value range of the
dataset. -/
def defaultFilters (df : List Row) : Filters :=
  { cats := allCategories df
    start := colMinInt (df.map Row.date)
    stop := colMaxInt (df.map Row.date)
    low := colMinRat (df.map Row.value)
    high := colMaxRat (df.map Row.value) }

/-- One full run of the state-relevant part of
`2_form_based_filters.py`: ensure `"applied_filters"` exists in the
session store (lines 78-79), update it on Reset or Apply (lines
112-125; on Apply the stored record is exactly the submitted form
values — `selected_cats if selected_cats else []` keeps the submitted
list unchanged), and filter the outputs with the stored values (lines
128-138).  Returns the new session value and the filtered table. -/
def runFormPage (df : List Row) (state : Option Filters)
    (reset applied : Bool) (form : Filters) : Filters × List Row :=
  let ensured := state.getD (defaultFilters df)
  let newState :=
    if reset then defaultFilters df
    else if applied then form
    else ensured
  (newState, filteredForm df newState)

/-- C4: In the form-based filter page, the last-applied filter values
stored in session memory under `"applied_filters"` change only when a
submit button is pressed: pressing Reset restores the default filters
(all categories, full date range, full value range); pressing Apply
(when Reset is not pressed) stores exactly the submitted form values;
when neither is pressed the previously applied values are kept
unchanged and the outputs are filtered using them. -/
theorem applied_filters_change_only_on_submit
    (df : List Row) (state : Option Filters) (reset applied : Bool)
    (form : Filters) :
    (reset = true →
      (runFormPage df state reset applied form).1 = defaultFilters df ∧
      (runFormPage df state reset applied form).1 =
        { cats := allCategories df
          start := colMinInt (df.map Row.date)
          stop := colMaxInt (df.map Row.date)
          low := colMinRat (df.map Row.value)
          high := colMaxRat (df.map Row.value) }) ∧
    (reset = false → applied = true →
      (runFormPage df state reset applied form).1 = form) ∧
    (reset = false → applied = false → ∀ prev : Filters, state = some prev →
      (runFormPage df state reset applied form).1 = prev) ∧
    (runFormPage df state reset applied form).2 =
      filteredForm df (runFormPage df state reset applied form).1 := by
  refine ⟨?_, ?_, ?_, ?_⟩
  · intro hr; subst hr
    exact ⟨rfl, rfl⟩
  · intro hr ha; subst hr; subst ha
    rfl
  · intro hr ha prev hs; subst hr; subst ha; subst hs
    rfl
  · cases reset <;> cases applied <;> rfl

/-- Concrete instantiation of `applied_filters_change_only_on_submit`:
with neither button pressed, the previously applied values survive the
run unchanged. -/
theorem applied_filters_change_only_on_submit_witness :
    (false = false → false = false → ∀ prev : Filters,
      (some (Filters.mk ["Beta"] 2 4 1 9) : Option Filters) = some prev →
      (runFormPage [⟨1, "Alpha", 5⟩] (some (Filters.mk ["Beta"] 2 4 1 9))
        false false (Filters.mk [] 0 0 0 0)).1 = prev) :=
  (applied_filters_change_only_on_submit [⟨1, "Alpha", 5⟩]
    (some (Filters.mk ["Beta"] 2 4 1 9)) false false
    (Filters.mk [] 0 0 0 0)).2.2.1

/-! ## Session run counters (C8) -/

/-- `caching-fragments/app.py` lines 10-15: if `"app_runs"` is absent
from the session store it is set to `0`, then incremented by one; the
result is the value stored (and displayed) for this run. -/
def appRunsStep (st : Option Nat) : Nat := st.getD 0 + 1

/-- `lab1.py` lines 23-25: same init-if-absent-then-increment pattern
for `"runs"`.  Nothing in the script deletes or overwrites the key
otherwise (the lab's reset button touches only `"counter"`). -/
def runsStep (st : Option Nat) : Nat := st.getD 0 + 1

/-- One full run of `key-concepts/app.py` for the `"run_count"` key:
lines 47-49 initialize the key to 0 when absent and increment it by
one (that incremented value is what the run displays); lines 101-106
then delete the key again (and request a rerun) when the "Reset this
section's state" button was pressed during this run.  Returns the
displayed value and the session value after the run. -/
def keyConceptsRun (st : Option Nat) (resetPressed : Bool) :
    Nat × Option Nat :=
  let v := st.getD 0 + 1
  (v, if resetPressed then none else some v)

/-- The session value of `"run_count"` after a session of full runs
with the given reset-button presses (`none` = key absent; the rerun
requested by a reset press is simply the next run of the session). -/
def keyConceptsAfter (presses : List Bool) : Option Nat :=
  presses.foldl (fun st p => (keyConceptsRun st p).2) none

/-- The session value of a counter key after `n` full script runs of a
fresh session (`none` = key absent before the first run). -/
def counterAfter (step : Option Nat → Nat) : Nat → Option Nat
  | 0 => none
  | n + 1 => some (step (counterAfter step n))

theorem counterAfter_getD_eq (step : Option Nat → Nat)
    (h : ∀ st : Option Nat, step st = st.getD 0 + 1) :
    ∀ n : Nat, (counterAfter step n).getD 0 = n := by
  intro n
  induction n with
  | zero => rfl
  | succ n ih => simp [counterAfter, h, ih]

theorem keyConceptsRun_foldl_some (n : Nat) :
    ∀ k : Nat, (List.replicate n false).foldl
        (fun st p => (keyConceptsRun st p).2) (some k) = some (k + n) := by
  induction n with
  | zero => intro k; rfl
  | succ n ih =>
    intro k
    rw [List.replicate_succ, List.foldl_cons]
    have h1 : (keyConceptsRun (some k) false).2 = some (k + 1) := rfl
    rw [h1, ih]
    congr 1
    omega

theorem keyConceptsAfter_replicate (n : Nat) :
    (List.replicate n false).foldl
        (fun st p => (keyConceptsRun st p).2) none =
      if n = 0 then none else some n := by
  cases n with
  | zero => rfl
  | succ n =>
    rw [List.replicate_succ, List.foldl_cons]
    have h1 : (keyConceptsRun none false).2 = some 1 := rfl
    rw [h1, keyConceptsRun_foldl_some]
    simp [Nat.add_comm]

/-- Counterexample to "after the n-th full run of a session the
counter's value equals n" for `run_count`: in the three-run session
whose second run presses the key-concepts reset button (which deletes
`run_count` and reruns, `key-concepts/app.py` lines 101-106), the
stored value after the third full run is 1, not 3. -/
theorem run_counter_counterexample :
    ([false, true, false] : List Bool).length = 3 ∧
    keyConceptsAfter [false, true, false] = some 1 ∧
    keyConceptsAfter [false, true, false] ≠ some 3 := by
  refine ⟨rfl, rfl, ?_⟩
  decide

/-- C8 (amended): Each session run counter (`app_runs` in the caching
demo, `run_count` in key-concepts, `runs` in lab1) is initialized to 0
when absent from the session store and incremented by exactly one on
every full script run, and the displayed value is always at least 1.
For `app_runs` and `runs`, which nothing deletes, the value after the
n-th full run of a session equals n.  `run_count` is deleted by the
key-concepts reset button, so its value after the n-th full run equals
n only in sessions where that button is never pressed; in general it
equals the number of full runs since the last reset press. -/
theorem session_run_counters_amended :
    (∀ st : Option Nat,
      appRunsStep st = st.getD 0 + 1 ∧
      runsStep st = st.getD 0 + 1 ∧
      ∀ p : Bool, (keyConceptsRun st p).1 = st.getD 0 + 1 ∧
        1 ≤ (keyConceptsRun st p).1) ∧
    (∀ n : Nat,
      counterAfter appRunsStep (n + 1) = some (n + 1) ∧
      counterAfter runsStep (n + 1) = some (n + 1) ∧
      1 ≤ n + 1) ∧
    (∀ n : Nat,
      keyConceptsAfter (List.replicate (n + 1) false) = some (n + 1)) ∧
    (∀ (presses : List Bool) (n : Nat),
      keyConceptsAfter (presses ++ true :: List.replicate n false) =
        if n = 0 then none else some n) := by
  refine ⟨?_, ?_, ?_, ?_⟩
  · intro st
    exact ⟨rfl, rfl, fun p => ⟨rfl, Nat.succ_le_succ (Nat.zero_le _)⟩⟩
  · intro n
    have h1 := counterAfter_getD_eq appRunsStep (fun st => rfl) n
    have h3 := counterAfter_getD_eq runsStep (fun st => rfl) n
    refine ⟨?_, ?_, Nat.succ_le_succ (Nat.zero_le n)⟩
    · simp [counterAfter, appRunsStep, h1]
    · simp [counterAfter, runsStep, h3]
  · intro n
    unfold keyConceptsAfter
    rw [keyConceptsAfter_replicate]
    simp
  · intro presses n
    unfold keyConceptsAfter
    rw [List.foldl_append, List.foldl_cons]
    have h2 : (keyConceptsRun
        (presses.foldl (fun st p => (keyConceptsRun st p).2) none) true).2 =
        none := rfl
    rw [h2, keyConceptsAfter_replicate]

/-! ## Deterministic synthetic-data generation (C7)

The filter pages call `np.random.seed(0)` and then draw from numpy's
global generator.  We model the generator stream abstractly: `g seed k`
is the k-th standard-normal draw produced after seeding with `seed`, for
an arbitrary function `g`; the global generator state is the pair of the
current seed and the number of draws consumed so far.  `np.random.seed(0)`
replaces whatever state the generator had with `⟨0, 0⟩`. -/

/-- State of numpy's global random generator: the seed it was last
seeded with and the position in that seed's draw stream. -/
structure RngState where
  seed : Nat
  pos : Nat
  deriving DecidableEq, Repr

/-- `np.random.normal(0, scale, n)`: `n` draws, each `scale` times the
next standard-normal value of the stream, advancing the state. -/
def normalDraws (g : Nat → Nat → Rat) (st : RngState) (scale : Rat)
    (n : Nat) : List Rat × RngState :=
  ((List.range n).map (fun k => scale * g st.seed (st.pos + k)),
    ⟨st.seed, st.pos + n⟩)

/-- `.cumsum()` on a numeric array (running partial sums). -/
def cumsum : List Rat → Rat → List Rat
  | [], _ => []
  | x :: xs, acc => (acc + x) :: cumsum xs (acc + x)

/-- Number of days in the synthetic date range
(`pd.date_range("2024-01-01", periods=180, freq="D")`). -/
def numDays : Nat := 180

/-- Day number of 2024-01-01 (days since 1970-01-01); dates in the
synthetic tables are `baseDay + i` for `i < numDays`. -/
def baseDay : Int := 19723

/-- The fixed category list of the filter pages. -/
def filterCats : List String := ["Alpha", "Beta", "Gamma"]

/-- The rows generated for one category `c` (the loop body of
`1_Intro_to_Filters.py` lines 13-17): `base = 100 + np.linspace(0, 20,
180)`, `noise = np.random.normal(0, 4, 180).cumsum()`,
`vals = np.maximum(0, base + noise)`, one row per day. -/
def genCatRows (g : Nat → Nat → Rat) (st : RngState) (c : String) :
    List Row × RngState :=
  let (draws, st2) := normalDraws g st 4 numDays
  let noise := cumsum draws 0
  let rows := (List.range numDays).map (fun i =>
    ⟨baseDay + i, c,
      max 0 ((100 + 20 * (i : Rat) / 179) + noise.getD i 0)⟩)
  (rows, st2)

/-- `df = pd.DataFrame(rows)` of the filter pages (lines 8-18 of
`1_Intro_to_Filters.py` and `3_Filter_Placement_Patterns.py`): the rows
of all three categories, generated in order from the global RNG. -/
def genSalesDf (g : Nat → Nat → Rat) (st : RngState) :
    List Row × RngState :=
  filterCats.foldl
    (fun acc c =>
      let (r, st2) := genCatRows g acc.2 c
      (acc.1 ++ r, st2))
    ([], st)

/-- A row of the inventory dataset of
`3_Filter_Placement_Patterns.py`. -/
structure InvRow where
  date : Int
  warehouse : String
  stock : Rat
  deriving DecidableEq, Repr

/-- The fixed warehouse list of `3_Filter_Placement_Patterns.py`. -/
def warehouseList : List String := ["East", "West", "Central"]

/-- The inventory rows generated for one warehouse `w`
(`3_Filter_Placement_Patterns.py` lines 23-27): `base = 500 +
np.linspace(0, -60, 180)`, `noise = np.random.normal(0, 6,
180).cumsum()`, `stock = np.maximum(0, base + noise)`. -/
def genWarehouseRows (g : Nat → Nat → Rat) (st : RngState) (w : String) :
    List InvRow × RngState :=
  let (draws, st2) := normalDraws g st 6 numDays
  let noise := cumsum draws 0
  let rows := (List.range numDays).map (fun i =>
    ⟨baseDay + i, w,
      max 0 ((500 - 60 * (i : Rat) / 179) + noise.getD i 0)⟩)
  (rows, st2)

/-- `df_inventory = pd.DataFrame(inv_rows)` of
`3_Filter_Placement_Patterns.py` lines 20-28, drawing from the RNG
state left by the sales generation. -/
def genInventoryDf (g : Nat → Nat → Rat) (st : RngState) :
    List InvRow × RngState :=
  warehouseList.foldl
    (fun acc w =>
      let (r, st2) := genWarehouseRows g acc.2 w
      (acc.1 ++ r, st2))
    ([], st)

/-- The dataset of `1_Intro_to_Filters.py` as a function of the global
RNG state the script starts with: line 9 (`np.random.seed(0)`) replaces
that state with `⟨0, 0⟩` before any draw. -/
def introPageDf (g : Nat → Nat → Rat) (initial : RngState) : List Row :=
  let _ := initial
  (genSalesDf g ⟨0, 0⟩).1

/-- The two datasets of `3_Filter_Placement_Patterns.py` (lines 8-28)
as a function of the initial global RNG state: seed 0, generate the
sales table, then the inventory table from the remaining stream. -/
def placementPageData (g : Nat → Nat → Rat) (initial : RngState) :
    List Row × List InvRow :=
  let _ := initial
  let (df, st) := genSalesDf g ⟨0, 0⟩
  (df, (genInventoryDf g st).1)

/-- C7: The synthetic dataset generation in the filter pages is
deterministic: for any two executions of the generation code (fixed
random seed 0, fixed date range and categories), the resulting tables
are equal row for row, so the dataset re-derived on every script
execution is always the same table. -/
theorem synthetic_generation_deterministic :
    ∀ (g : Nat → Nat → Rat) (s₁ s₂ : RngState),
      introPageDf g s₁ = introPageDf g s₂ ∧
      placementPageData g s₁ = placementPageData g s₂ := by
  intro g s₁ s₂
  exact ⟨rfl, rfl⟩

/-! ## pandas `groupby` as association-list grouping

`data.groupby(key)` is modelled operationally: a left fold over the rows
appending each row to its key's group (creating the group on first
sight), as a hash grouping does.  The lemmas below recover the
declarative reading — each group holds exactly the rows whose key
matches — which the aggregation claims are stated against.  pandas
additionally sorts the group keys; all claims below are membership
based, so key order is irrelevant. -/

section GroupBy

variable {κ α : Type} [DecidableEq κ]

/-- Append a record to the group of key `k`, creating the group at the
end if absent. -/
def insertGroup : List (κ × List α) → κ → α → List (κ × List α)
  | [], k, r => [(k, [r])]
  | (k', rs) :: rest, k, r =>
    if k' = k then (k', rs ++ [r]) :: rest
    else (k', rs) :: insertGroup rest k r

/-- `data.groupby(key)`: rows of `data` grouped by `key`, rows in
source order within each group. -/
def groupByKey (key : α → κ) (data : List α) : List (κ × List α) :=
  data.foldl (fun acc r => insertGroup acc (key r) r) []

/-- The rows currently grouped under `k` (empty if no such group). -/
def findGroup (acc : List (κ × List α)) (k : κ) : List α :=
  match acc.find? (fun g => decide (g.1 = k)) with
  | some g => g.2
  | none => []

theorem findGroup_nil (k : κ) : findGroup ([] : List (κ × List α)) k = [] := rfl

theorem findGroup_insertGroup (acc : List (κ × List α)) (k k' : κ) (r : α) :
    findGroup (insertGroup acc k r) k' =
      if k' = k then findGroup acc k' ++ [r] else findGroup acc k' := by
  induction acc with
  | nil =>
    by_cases h : k' = k
    · simp [insertGroup, findGroup, List.find?, h]
    · have h2 : ¬(k = k') := fun hc => h hc.symm
      simp [insertGroup, findGroup, List.find?, h, h2]
  | cons g rest ih =>
    obtain ⟨kg, rs⟩ := g
    by_cases hgk : kg = k
    · subst hgk
      by_cases h : k' = kg
      · subst h
        simp [insertGroup, findGroup, List.find?]
      · simp [insertGroup, findGroup, List.find?, h, Ne.symm h]
    · by_cases h : k' = kg
      · subst h
        simp [insertGroup, hgk, findGroup, List.find?, Ne.symm hgk]
      · simp only [insertGroup, hgk, if_false]
        have hh : findGroup ((kg, rs) :: insertGroup rest k r) k' =
            findGroup (insertGroup rest k r) k' := by
          simp [findGroup, List.find?, h, Ne.symm h]
        have hh2 : findGroup ((kg, rs) :: rest) k' = findGroup rest k' := by
          simp [findGroup, List.find?, h, Ne.symm h]
        rw [hh, ih, hh2]

theorem insertGroup_fst (acc : List (κ × List α)) (k : κ) (r : α) :
    (insertGroup acc k r).map Prod.fst =
      if k ∈ acc.map Prod.fst then acc.map Prod.fst
      else acc.map Prod.fst ++ [k] := by
  induction acc with
  | nil => simp [insertGroup]
  | cons g rest ih =>
    obtain ⟨kg, rs⟩ := g
    by_cases h : kg = k
    · subst h
      simp [insertGroup]
    · simp only [insertGroup, h, if_false, List.map_cons]
      rw [ih]
      by_cases hk : k ∈ rest.map Prod.fst
      · simp [hk, Ne.symm h]
      · simp [hk, Ne.symm h]

theorem insertGroup_fst_nodup (acc : List (κ × List α)) (k : κ) (r : α)
    (h : (acc.map Prod.fst).Nodup) :
    ((insertGroup acc k r).map Prod.fst).Nodup := by
  rw [insertGroup_fst]
  by_cases hk : k ∈ acc.map Prod.fst
  · simpa [hk]
  · simp only [hk, if_false]
    rw [List.nodup_append]
    refine ⟨h, List.nodup_singleton k, ?_⟩
    intro a ha hax
    rw [List.mem_singleton] at hax
    subst hax
    exact hk ha

theorem insertGroup_snd_ne_nil (acc : List (κ × List α)) (k : κ) (r : α) :
    (∀ p ∈ acc, p.2 ≠ []) → ∀ p ∈ insertGroup acc k r, p.2 ≠ [] := by
  induction acc with
  | nil =>
    intro _ p hp
    simp only [insertGroup, List.mem_singleton] at hp
    subst hp
    simp
  | cons g rest ih =>
    obtain ⟨kg, rs⟩ := g
    intro h p hp
    by_cases hg : kg = k
    · subst hg
      simp only [insertGroup, if_pos rfl] at hp
      cases hp with
      | head => simp
      | tail _ hp => exact h p (List.mem_cons_of_mem _ hp)
    · simp only [insertGroup, hg, if_false] at hp
      cases hp with
      | head => exact h (kg, rs) (List.mem_cons_self _ _)
      | tail _ hp => exact ih (fun q hq => h q (List.mem_cons_of_mem _ hq)) p hp

theorem foldl_insertGroup_fst_nodup (key : α → κ) (l : List α) :
    ∀ acc : List (κ × List α), (acc.map Prod.fst).Nodup →
      (((l.foldl (fun a r => insertGroup a (key r) r) acc)).map Prod.fst).Nodup := by
  induction l with
  | nil => intro acc h; simpa using h
  | cons x xs ih =>
    intro acc h
    rw [List.foldl_cons]
    exact ih _ (insertGroup_fst_nodup acc (key x) x h)

theorem foldl_insertGroup_snd_ne_nil (key : α → κ) (l : List α) :
    ∀ acc : List (κ × List α), (∀ p ∈ acc, p.2 ≠ []) →
      ∀ p ∈ l.foldl (fun a r => insertGroup a (key r) r) acc, p.2 ≠ [] := by
  induction l with
  | nil => intro acc h; simpa using h
  | cons x xs ih =>
    intro acc h
    rw [List.foldl_cons]
    exact ih _ (insertGroup_snd_ne_nil acc (key x) x h)

theorem findGroup_of_mem (acc : List (κ × List α)) :
    (acc.map Prod.fst).Nodup → ∀ p ∈ acc, findGroup acc p.1 = p.2 := by
  induction acc with
  | nil => intro _ p hp; cases hp
  | cons g rest ih =>
    intro h p hp
    rcases List.mem_cons.mp hp with hp | hp
    · subst hp
      simp [findGroup, List.find?]
    · have hne : g.1 ≠ p.1 := by
        intro he
        rw [List.map_cons, List.nodup_cons] at h
        exact h.1 (he ▸ List.mem_map_of_mem Prod.fst hp)
      have : findGroup (g :: rest) p.1 = findGroup rest p.1 := by
        obtain ⟨kg, rs⟩ := g
        simp only [findGroup, List.find?]
        simp [show ¬(kg = p.1) from hne]
      rw [this]
      rw [List.map_cons, List.nodup_cons] at h
      exact ih h.2 p hp

theorem findGroup_foldl (key : α → κ) (l : List α) :
    ∀ (acc : List (κ × List α)) (k : κ),
      findGroup (l.foldl (fun a r => insertGroup a (key r) r) acc) k =
        findGroup acc k ++ l.filter (fun r => decide (key r = k)) := by
  induction l with
  | nil => intro acc k; simp
  | cons x xs ih =>
    intro acc k
    rw [List.foldl_cons, ih, findGroup_insertGroup]
    by_cases h : k = key x
    · simp [h, List.append_assoc]
    · have h2 : ¬(key x = k) := fun hc => h hc.symm
      simp [h, h2]

/-- Main characterization of the grouping fold: every group of
`groupByKey key data` holds exactly the rows of `data` with that key,
and is non-empty (so its key is the key of some row of `data`). -/
theorem groupByKey_mem_spec (key : α → κ) (data : List α)
    (p : κ × List α) (hp : p ∈ groupByKey key data) :
    p.2 = data.filter (fun r => decide (key r = p.1)) ∧
      ∃ r ∈ data, key r = p.1 := by
  have hnodup : ((groupByKey key data).map Prod.fst).Nodup :=
    foldl_insertGroup_fst_nodup key data [] (by simp)
  have hfind : findGroup (groupByKey key data) p.1 = p.2 :=
    findGroup_of_mem _ hnodup p hp
  have hspec : findGroup (groupByKey key data) p.1 =
      data.filter (fun r => decide (key r = p.1)) := by
    rw [groupByKey, findGroup_foldl]
    simp [findGroup_nil]
  have heq : p.2 = data.filter (fun r => decide (key r = p.1)) := by
    rw [← hfind, hspec]
  refine ⟨heq, ?_⟩
  have hne : p.2 ≠ [] :=
    foldl_insertGroup_snd_ne_nil key data [] (by simp) p hp
  rw [heq] at hne
  obtain ⟨r, hr⟩ := List.exists_mem_of_ne_nil _ hne
  have := List.mem_filter.mp hr
  exact ⟨r, this.1, by simpa using this.2⟩

end GroupBy

/-! ## The caching-fragments aggregation pipeline
(`tutorial/caching-fragments/app.py`)

A row of the Zillow-style sheet after `preprocess_data`: every cell of a
numeric column is either a number or missing (NaN), the city is either a
string or missing, and `sold_year_month` (present when the sheet has a
`sold_date` column, tracked by the `hasYM` flag) is a month, encoded as
an integer. -/
structure HRow where
  city : Option String
  price : Option Rat
  zpid : Option Rat
  area : Option Rat
  beds : Option Rat
  baths : Option Rat
  psf : Option Rat
  soldYM : Option Int
  deriving DecidableEq, Repr, Inhabited

/-- `data.dropna(subset=required_cols)` of `_compute_aggregations`
(lines 150-154): keep a row iff `city`, `price` and `zpid` are present,
and `sold_year_month` too when that column exists. -/
def requiredOk (hasYM : Bool) (r : HRow) : Bool :=
  r.city.isSome && r.price.isSome && r.zpid.isSome &&
    (!hasYM || r.soldYM.isSome)

/-- pandas `count` aggregation: the number of non-missing values. -/
def countAgg (l : List (Option Rat)) : Nat := (l.filterMap id).length

/-- A numeric column sorted ascending. -/
def sortedVals (l : List Rat) : List Rat :=
  l.insertionSort (· ≤ ·)

/-- Median of a non-empty list of numbers: middle element of the sorted
list, or the average of the two middle elements for even length. -/
def medianList (l : List Rat) : Rat :=
  let v := sortedVals l
  if v.length % 2 = 1 then v.getD (v.length / 2) 0
  else (v.getD (v.length / 2 - 1) 0 + v.getD (v.length / 2) 0) / 2

/-- pandas `median` aggregation: the median of the non-missing values,
missing when there are none. -/
def medianAgg (l : List (Option Rat)) : Option Rat :=
  let v := l.filterMap id
  if v = [] then none else some (medianList v)

/-- Mean of a non-empty list of numbers. -/
def meanList (l : List Rat) : Rat := l.sum / l.length

/-- pandas `mean` aggregation: the mean of the non-missing values,
missing when there are none. -/
def meanAgg (l : List (Option Rat)) : Option Rat :=
  let v := l.filterMap id
  if v = [] then none else some (meanList v)

/-- pandas `quantile(p)` aggregation with linear interpolation on the
sorted non-missing values. -/
def quantileAgg (p : Rat) (l : List (Option Rat)) : Option Rat :=
  let v := sortedVals (l.filterMap id)
  if v = [] then none
  else
    let h : Rat := ((v.length - 1 : Nat) : Rat) * p
    let lo := (⌊h⌋).toNat
    let hi := (⌈h⌉).toNat
    some (v.getD lo 0 + (h - ⌊h⌋) * (v.getD hi 0 - v.getD lo 0))

/-- One row of `city_summary` (the named-aggregation `groupby("city")
.agg(...)` of lines 166-177 and 195-206). -/
structure CityStat where
  city : String
  total_sales : Nat
  median_price : Option Rat
  mean_price : Option Rat
  median_area : Option Rat
  avg_beds : Option Rat
  avg_baths : Option Rat
  deriving DecidableEq, Repr

/-- The aggregation applied to one city group: `total_sales` counts
`zpid`, `median_price`/`mean_price` aggregate `price`, `median_area`
aggregates `area`, `avg_beds`/`avg_baths` average `beds`/`baths`. -/
def aggCityGroup (c : String) (rows : List HRow) : CityStat :=
  { city := c
    total_sales := countAgg (rows.map HRow.zpid)
    median_price := medianAgg (rows.map HRow.price)
    mean_price := meanAgg (rows.map HRow.price)
    median_area := medianAgg (rows.map HRow.area)
    avg_beds := meanAgg (rows.map HRow.beds)
    avg_baths := meanAgg (rows.map HRow.baths) }

/-- `data.groupby("city", dropna=False).agg(...).reset_index()`: one
summary row per city group (rows of `data` have a non-missing city, so
the key is read with `getD`). -/
def citySummaryOf (data : List HRow) : List CityStat :=
  (groupByKey (fun r => r.city.getD "") data).map
    (fun g => aggCityGroup g.1 g.2)

/-- One row of `monthly_stats` (after the multi-aggregation groupby of
lines 213-239, the quantile merge of lines 242-252 — the quantile frame
is grouped by the same keys, so the left merge attaches each group's
quantiles to its row — and `add_rolling` of lines 255-274). -/
structure MonthlyStat where
  city : String
  sold_year_month : Int
  sales_count : Nat
  median_price : Option Rat
  mean_price : Option Rat
  median_price_sf : Option Rat
  mean_price_sf : Option Rat
  q25_price : Option Rat
  q75_price : Option Rat
  median_price_6m : Option Rat
  sales_6m : Option Rat
  mom_change : Option Rat
  deriving DecidableEq, Repr, Inhabited

/-- The per-`(city, month)` aggregation of lines 215-252 (the rolling
columns are filled in later by `add_rolling`). -/
def aggMonthlyGroup (key : String × Int) (rows : List HRow) : MonthlyStat :=
  { city := key.1
    sold_year_month := key.2
    sales_count := countAgg (rows.map HRow.zpid)
    median_price := medianAgg (rows.map HRow.price)
    mean_price := meanAgg (rows.map HRow.price)
    median_price_sf := medianAgg (rows.map HRow.psf)
    mean_price_sf := meanAgg (rows.map HRow.psf)
    q25_price := quantileAgg (1 / 4) (rows.map HRow.price)
    q75_price := quantileAgg (3 / 4) (rows.map HRow.price)
    median_price_6m := none
    sales_6m := none
    mom_change := none }

/-- A rolling-window aggregate at index `i`: apply `f` to the
non-missing values of the last up-to-`window` entries ending at `i`,
provided at least `minp` of them are present. -/
def rollingAgg (f : List Rat → Rat) (window minp : Nat)
    (l : List (Option Rat)) (i : Nat) : Option Rat :=
  let w := ((l.take (i + 1)).drop (i + 1 - window)).filterMap id
  if minp ≤ w.length then some (f w) else none

/-- `pct_change` at index `i`: `(x_i - x_(i-1)) / x_(i-1)`, missing at
the first entry or when either value is missing. -/
def pctChange (l : List (Option Rat)) (i : Nat) : Option Rat :=
  if i = 0 then none
  else
    match l.getD i none, l.getD (i - 1) none with
    | some a, some b => some ((a - b) / b)
    | _, _ => none

/-- `add_rolling` (lines 255-268): sort the city's monthly rows by
month, then add the 6-month rolling median of `median_price`
(`min_periods=3`), the 6-month rolling sum of `sales_count`, and the
month-over-month change of `median_price`. -/
def addRolling (g : List MonthlyStat) : List MonthlyStat :=
  let sorted := g.insertionSort (fun a b => a.sold_year_month ≤ b.sold_year_month)
  let medP := sorted.map MonthlyStat.median_price
  let cnts := sorted.map (fun m => some ((m.sales_count : Nat) : Rat))
  (sorted.zip (List.range sorted.length)).map (fun q =>
    { q.1 with
      median_price_6m := rollingAgg medianList 6 3 medP q.2
      sales_6m := rollingAgg List.sum 6 3 cnts q.2
      mom_change := pctChange medP q.2 })

/-- `monthly_stats` (lines 213-274): group the retained big-city rows
by `(city, sold_year_month)`, aggregate each group, then apply
`add_rolling` city by city (`groupby("city", group_keys=False)
.apply(add_rolling)`). -/
def monthlyStatsOf (data : List HRow) : List MonthlyStat :=
  let grouped := (groupByKey (fun r => (r.city.getD "", r.soldYM.getD 0)) data).map
    (fun g => aggMonthlyGroup g.1 g.2)
  (groupByKey (fun m => m.city) grouped).flatMap (fun g => addRolling g.2)

/-- The threshold of `caching-fragments/app.py` line 145. -/
def MIN_CITY_SALES : Nat := 10

/-- The components of the dictionary returned by
`_compute_aggregations` that the claims refer to.  The price-index
pivot and the correlation matrix (lines 277-294) are derived from
`monthly_stats` and are not mentioned by any claim, so they are not
modelled. -/
structure AggResults where
  filtered_data : List HRow
  city_summary : List CityStat
  monthly_stats : List MonthlyStat
  deriving Repr

/-- `big_cities` (lines 179-181): the cities whose `total_sales` in the
full-data city summary reaches `MIN_CITY_SALES`. -/
def bigCities (data : List HRow) : List String :=
  ((citySummaryOf data).filter
    (fun s => decide (MIN_CITY_SALES ≤ s.total_sales))).map CityStat.city

/-- `_compute_aggregations` (lines 147-302): drop rows missing a
required column; if nothing is left return empty results; summarize by
city on the full retained data; keep only the rows of `big_cities`
(line 183); if nothing is left return the sliced empty summary;
otherwise recompute the city summary on the kept rows and build the
monthly statistics (when the sheet has sold dates). -/
def computeAggregations (hasYM : Bool) (df : List HRow) : AggResults :=
  let data := df.filter (requiredOk hasYM)
  if data = [] then
    { filtered_data := [], city_summary := [], monthly_stats := [] }
  else
    let data2 := data.filter (fun r => (bigCities data).contains (r.city.getD ""))
    if data2 = [] then
      { filtered_data := data2, city_summary := [], monthly_stats := [] }
    else
      { filtered_data := data2
        city_summary := citySummaryOf data2
        monthly_stats := if hasYM then monthlyStatsOf data2 else [] }

theorem countAgg_eq_length (l : List (Option Rat))
    (h : ∀ o ∈ l, o.isSome) : countAgg l = l.length := by
  induction l with
  | nil => rfl
  | cons o rest ih =>
    have ho := h o (List.mem_cons_self _ _)
    obtain ⟨a, ha⟩ := Option.isSome_iff_exists.mp ho
    subst ha
    have := ih (fun o ho => h o (List.mem_cons_of_mem _ ho))
    simp [countAgg, List.filterMap_cons] at this ⊢
    exact this

theorem zpid_isSome_of_required (hasYM : Bool) (df : List HRow)
    (r : HRow) (hr : r ∈ df.filter (requiredOk hasYM)) :
    r.zpid.isSome := by
  have h := (List.mem_filter.mp hr).2
  unfold requiredOk at h
  simp only [Bool.and_eq_true] at h
  exact h.1.2

/-- Membership in `citySummaryOf` comes from a city group of the
data. -/
theorem mem_citySummaryOf (data : List HRow) (s : CityStat)
    (hs : s ∈ citySummaryOf data) :
    ∃ g : String × List HRow,
      g ∈ groupByKey (fun r => r.city.getD "") data ∧
      s = aggCityGroup g.1 g.2 ∧
      g.2 = data.filter (fun r => decide (r.city.getD "" = s.city)) ∧
      ∃ r ∈ data, r.city.getD "" = s.city := by
  unfold citySummaryOf at hs
  obtain ⟨g, hg, hgs⟩ := List.mem_map.mp hs
  have hspec := groupByKey_mem_spec (fun r => r.city.getD "") data g hg
  have hc : s.city = g.1 := by rw [← hgs]; rfl
  refine ⟨g, hg, hgs.symm, ?_, ?_⟩
  · rw [hc]; exact hspec.1
  · rw [hc]; exact hspec.2

/-- C2: For every input table, the city_summary returned by
`_compute_aggregations` reproduces the standard descriptive statistics
of the retained rows: for each city it contains, `total_sales` equals
the count of retained rows for that city, `median_price` and
`mean_price` equal the median and mean of those rows' price column,
`median_area` equals the median of area, and `avg_beds`/`avg_baths`
equal the means of beds/baths. -/
theorem city_summary_reproduces_descriptive_stats (hasYM : Bool)
    (df : List HRow) (s : CityStat)
    (hs : s ∈ (computeAggregations hasYM df).city_summary) :
    s.total_sales =
      ((computeAggregations hasYM df).filtered_data.filter
        (fun r => decide (r.city.getD "" = s.city))).length ∧
    s.median_price = medianAgg
      (((computeAggregations hasYM df).filtered_data.filter
        (fun r => decide (r.city.getD "" = s.city))).map HRow.price) ∧
    s.mean_price = meanAgg
      (((computeAggregations hasYM df).filtered_data.filter
        (fun r => decide (r.city.getD "" = s.city))).map HRow.price) ∧
    s.median_area = medianAgg
      (((computeAggregations hasYM df).filtered_data.filter
        (fun r => decide (r.city.getD "" = s.city))).map HRow.area) ∧
    s.avg_beds = meanAgg
      (((computeAggregations hasYM df).filtered_data.filter
        (fun r => decide (r.city.getD "" = s.city))).map HRow.beds) ∧
    s.avg_baths = meanAgg
      (((computeAggregations hasYM df).filtered_data.filter
        (fun r => decide (r.city.getD "" = s.city))).map HRow.baths) := by
  by_cases hd : df.filter (requiredOk hasYM) = []
  · unfold computeAggregations at hs
    rw [if_pos hd] at hs
    cases hs
  · by_cases hd2 :
      (df.filter (requiredOk hasYM)).filter
        (fun r =>
          (bigCities (df.filter (requiredOk hasYM))).contains (r.city.getD "")) = []
    · unfold computeAggregations at hs
      rw [if_neg hd] at hs
      rw [if_pos hd2] at hs
      cases hs
    · have hres : computeAggregations hasYM df =
        { filtered_data :=
            (df.filter (requiredOk hasYM)).filter
              (fun r =>
                (bigCities (df.filter (requiredOk hasYM))).contains (r.city.getD ""))
          city_summary := citySummaryOf
            ((df.filter (requiredOk hasYM)).filter
              (fun r =>
                (bigCities (df.filter (requiredOk hasYM))).contains (r.city.getD "")))
          monthly_stats := if hasYM then monthlyStatsOf
            ((df.filter (requiredOk hasYM)).filter
              (fun r =>
                (bigCities (df.filter (requiredOk hasYM))).contains (r.city.getD "")))
            else [] } := by
        unfold computeAggregations
        rw [if_neg hd]
        rw [if_neg hd2]
      set data2 :=
        (df.filter (requiredOk hasYM)).filter
          (fun r =>
            (bigCities (df.filter (requiredOk hasYM))).contains (r.city.getD ""))
        with hdata2
      rw [hres] at hs ⊢
      simp only at hs ⊢
      obtain ⟨g, _, hagg, hrows, _⟩ := mem_citySummaryOf data2 s hs
      have hzp : ∀ r ∈ g.2, r.zpid.isSome := by
        intro r hr
        rw [hrows] at hr
        have hr2 : r ∈ data2 := (List.mem_filter.mp hr).1
        rw [hdata2] at hr2
        have hr3 : r ∈ df.filter (requiredOk hasYM) := (List.mem_filter.mp hr2).1
        exact zpid_isSome_of_required hasYM df r hr3
      have hcity : s.city = g.1 := by rw [hagg]; rfl
      rw [hcity] at hrows
      have hcount : countAgg (g.2.map HRow.zpid) = g.2.length := by
        rw [countAgg_eq_length (g.2.map HRow.zpid) ?_, List.length_map]
        intro o ho
        obtain ⟨r, hr, hro⟩ := List.mem_map.mp ho
        rw [← hro]
        exact hzp r hr
      rw [hcity]
      refine ⟨?_, ?_, ?_, ?_, ?_, ?_⟩ <;>
          rw [hagg] <;> unfold aggCityGroup <;> simp only [] <;> rw [← hrows]
      exact hcount

/-- `total_sales` of a city-summary row is the number of rows of its
city, when every row has a `zpid`. -/
theorem total_sales_eq_length (data : List HRow)
    (hdata : ∀ r ∈ data, r.zpid.isSome) (s : CityStat)
    (hs : s ∈ citySummaryOf data) :
    s.total_sales =
      (data.filter (fun r => decide (r.city.getD "" = s.city))).length := by
  obtain ⟨g, _, hagg, hrows, _⟩ := mem_citySummaryOf data s hs
  have hzp : ∀ o ∈ g.2.map HRow.zpid, o.isSome := by
    intro o ho
    obtain ⟨r, hr, hro⟩ := List.mem_map.mp ho
    rw [← hro]
    exact hdata r ((List.mem_filter.mp (hrows ▸ hr)).1)
  have : s.total_sales = countAgg (g.2.map HRow.zpid) := by rw [hagg]; rfl
  rw [this, countAgg_eq_length _ hzp, List.length_map, hrows]

/-- A city in the `big_cities` selection has at least `MIN_CITY_SALES`
retained rows. -/
theorem mem_big_cities_count (hasYM : Bool) (df : List HRow) (c : String)
    (hc : c ∈ ((citySummaryOf (df.filter (requiredOk hasYM))).filter
      (fun s => decide (MIN_CITY_SALES ≤ s.total_sales))).map CityStat.city) :
    MIN_CITY_SALES ≤ ((df.filter (requiredOk hasYM)).filter
      (fun r => decide (r.city.getD "" = c))).length := by
  obtain ⟨s, hsmem, hsc⟩ := List.mem_map.mp hc
  have h1 := List.mem_filter.mp hsmem
  have hts : MIN_CITY_SALES ≤ s.total_sales := by simpa using h1.2
  have hzp : ∀ r ∈ df.filter (requiredOk hasYM), r.zpid.isSome :=
    fun r hr => zpid_isSome_of_required hasYM df r hr
  have hlen := total_sales_eq_length _ hzp s h1.1
  rw [← hsc, ← hlen]
  exact hts

/-- Filtering the big-city rows down to one big city gives the same
rows as filtering the retained data down to that city. -/
theorem filter_city_of_mem_big (data : List HRow) (big : List String)
    (c : String) (hc : c ∈ big) :
    (data.filter (fun r => big.contains (r.city.getD ""))).filter
        (fun r => decide (r.city.getD "" = c)) =
      data.filter (fun r => decide (r.city.getD "" = c)) := by
  rw [List.filter_filter]
  apply List.filter_congr
  intro r _
  by_cases h : r.city.getD "" = c
  · simp [h, hc]
  · simp [h]

/-- `add_rolling` only fills in rolling columns: every output row keeps
the city of an input row. -/
theorem addRolling_city (g : List MonthlyStat) (m : MonthlyStat)
    (hm : m ∈ addRolling g) : ∃ m₀ ∈ g, m.city = m₀.city := by
  unfold addRolling at hm
  obtain ⟨q, hq, hqm⟩ := List.mem_map.mp hm
  have hq1 := (List.of_mem_zip hq).1
  have hperm := List.perm_insertionSort
    (fun a b => a.sold_year_month ≤ b.sold_year_month) g
  exact ⟨q.1, hperm.mem_iff.mp hq1, by rw [← hqm]⟩

/-- Every city in `monthly_stats` is the city of some row of the data
it was computed from. -/
theorem mem_monthlyStatsOf (data : List HRow) (m : MonthlyStat)
    (hm : m ∈ monthlyStatsOf data) :
    ∃ r ∈ data, r.city.getD "" = m.city := by
  unfold monthlyStatsOf at hm
  obtain ⟨G, hG, hmG⟩ := List.mem_flatMap.mp hm
  obtain ⟨m₀, hm₀, hcity⟩ := addRolling_city G.2 m hmG
  have hGspec := groupByKey_mem_spec (fun m => m.city) _ G hG
  rw [hGspec.1] at hm₀
  have hm₀g := List.mem_filter.mp hm₀
  obtain ⟨P, hP, hPm⟩ := List.mem_map.mp hm₀g.1
  have hPspec := groupByKey_mem_spec
    (fun r => (r.city.getD "", r.soldYM.getD 0)) data P hP
  obtain ⟨r, hr, hrkey⟩ := hPspec.2
  refine ⟨r, hr, ?_⟩
  have h1 : r.city.getD "" = P.1.1 := by rw [← hrkey]
  have h2 : m₀.city = P.1.1 := by rw [← hPm]; rfl
  rw [h1, ← h2, ← hcity]

/-- C10: Every city appearing in the `filtered_data`, `city_summary`,
and `monthly_stats` returned by `_compute_aggregations` has at least
`MIN_CITY_SALES` (10) retained records: cities below the threshold are
dropped before the per-city statistics are recomputed, and the
recomputed `total_sales` for every remaining city is still at least
10. -/
theorem aggregation_cities_have_min_sales (hasYM : Bool) (df : List HRow) :
    (∀ r ∈ (computeAggregations hasYM df).filtered_data,
      MIN_CITY_SALES ≤ ((df.filter (requiredOk hasYM)).filter
        (fun r' => decide (r'.city.getD "" = r.city.getD ""))).length) ∧
    (∀ s ∈ (computeAggregations hasYM df).city_summary,
      MIN_CITY_SALES ≤ s.total_sales ∧
      MIN_CITY_SALES ≤ ((df.filter (requiredOk hasYM)).filter
        (fun r' => decide (r'.city.getD "" = s.city))).length) ∧
    (∀ m ∈ (computeAggregations hasYM df).monthly_stats,
      MIN_CITY_SALES ≤ ((df.filter (requiredOk hasYM)).filter
        (fun r' => decide (r'.city.getD "" = m.city))).length) := by
  by_cases hd : df.filter (requiredOk hasYM) = []
  · unfold computeAggregations
    rw [if_pos hd]
    exact ⟨fun r hr => absurd hr (by simp), fun s hs => absurd hs (by simp),
      fun m hm => absurd hm (by simp)⟩
  · have hmemdata2 : ∀ r ∈ (df.filter (requiredOk hasYM)).filter
        (fun r => (bigCities (df.filter (requiredOk hasYM))).contains (r.city.getD "")),
        r.city.getD "" ∈ bigCities (df.filter (requiredOk hasYM)) := by
      intro r hr
      have := (List.mem_filter.mp hr).2
      simpa using this
    have hcount2 : ∀ r ∈ (df.filter (requiredOk hasYM)).filter
        (fun r => (bigCities (df.filter (requiredOk hasYM))).contains (r.city.getD "")),
        MIN_CITY_SALES ≤
          ((df.filter (requiredOk hasYM)).filter
            (fun r' => decide (r'.city.getD "" = r.city.getD ""))).length :=
      fun r hr => mem_big_cities_count hasYM df _ (hmemdata2 r hr)
    by_cases hd2 : (df.filter (requiredOk hasYM)).filter
        (fun r => (bigCities (df.filter (requiredOk hasYM))).contains (r.city.getD "")) = []
    · have hres : computeAggregations hasYM df =
        { filtered_data := (df.filter (requiredOk hasYM)).filter
            (fun r => (bigCities (df.filter (requiredOk hasYM))).contains (r.city.getD ""))
          city_summary := []
          monthly_stats := [] } := by
        unfold computeAggregations
        rw [if_neg hd]
        rw [if_pos hd2]
      rw [hres]
      refine ⟨?_, ?_, ?_⟩
      · intro r hr
        exact hcount2 r hr
      · intro s hs; cases hs
      · intro m hm; cases hm
    · have hres : computeAggregations hasYM df =
        { filtered_data := (df.filter (requiredOk hasYM)).filter
            (fun r => (bigCities (df.filter (requiredOk hasYM))).contains (r.city.getD ""))
          city_summary := citySummaryOf ((df.filter (requiredOk hasYM)).filter
            (fun r => (bigCities (df.filter (requiredOk hasYM))).contains (r.city.getD "")))
          monthly_stats := if hasYM then monthlyStatsOf
            ((df.filter (requiredOk hasYM)).filter
              (fun r => (bigCities (df.filter (requiredOk hasYM))).contains (r.city.getD "")))
            else [] } := by
        unfold computeAggregations
        rw [if_neg hd]
        rw [if_neg hd2]
      rw [hres]
      set data := df.filter (requiredOk hasYM) with hdata
      set data2 := data.filter
        (fun r => (bigCities data).contains (r.city.getD "")) with hdata2
      refine ⟨?_, ?_, ?_⟩
      · intro r hr
        exact hcount2 r hr
      · intro s hs
        have hzp2 : ∀ r ∈ data2, r.zpid.isSome := by
          intro r hr
          exact zpid_isSome_of_required hasYM df r (List.mem_filter.mp hr).1
        have hlen := total_sales_eq_length data2 hzp2 s hs
        obtain ⟨g, _, _, _, r, hr, hrc⟩ := mem_citySummaryOf data2 s hs
        have hcbig : s.city ∈ bigCities data := hrc ▸ hmemdata2 r hr
        have hsame : data2.filter (fun r' => decide (r'.city.getD "" = s.city)) =
            data.filter (fun r' => decide (r'.city.getD "" = s.city)) := by
          rw [hdata2]
          exact filter_city_of_mem_big data (bigCities data) s.city hcbig
        have hdcount := mem_big_cities_count hasYM df s.city hcbig
        constructor
        · rw [hlen, hsame]
          exact hdcount
        · exact hdcount
      · intro m hm
        by_cases hy : hasYM = true
        · rw [if_pos hy] at hm
          obtain ⟨r, hr, hrc⟩ := mem_monthlyStatsOf data2 m hm
          have := hcount2 r hr
          rw [hrc] at this
          exact this
        · rw [if_neg hy] at hm
          cases hm

/-- A ten-row sample sheet (all rows of city "A" with price 2) used to
instantiate the aggregation theorems on concrete data. -/
def sampleHRow : HRow :=
  { city := some "A", price := some 2, zpid := some 1, area := none,
    beds := none, baths := none, psf := none, soldYM := none }

/-- Ten copies of `sampleHRow`. -/
def sampleHTable : List HRow := List.replicate 10 sampleHRow

/-- The city-summary row produced for `sampleHTable`. -/
def sampleCityStat : CityStat :=
  { city := "A", total_sales := 10, median_price := some 2,
    mean_price := some 2, median_area := none, avg_beds := none,
    avg_baths := none }

/-- Concrete instantiation of
`city_summary_reproduces_descriptive_stats` on the ten-row sample
sheet. -/
theorem city_summary_reproduces_descriptive_stats_witness :
    sampleCityStat ∈ (computeAggregations false sampleHTable).city_summary ∧
    (sampleCityStat.total_sales =
      ((computeAggregations false sampleHTable).filtered_data.filter
        (fun r => decide (r.city.getD "" = sampleCityStat.city))).length ∧
    sampleCityStat.median_price = medianAgg
      (((computeAggregations false sampleHTable).filtered_data.filter
        (fun r => decide (r.city.getD "" = sampleCityStat.city))).map HRow.price) ∧
    sampleCityStat.mean_price = meanAgg
      (((computeAggregations false sampleHTable).filtered_data.filter
        (fun r => decide (r.city.getD "" = sampleCityStat.city))).map HRow.price) ∧
    sampleCityStat.median_area = medianAgg
      (((computeAggregations false sampleHTable).filtered_data.filter
        (fun r => decide (r.city.getD "" = sampleCityStat.city))).map HRow.area) ∧
    sampleCityStat.avg_beds = meanAgg
      (((computeAggregations false sampleHTable).filtered_data.filter
        (fun r => decide (r.city.getD "" = sampleCityStat.city))).map HRow.beds) ∧
    sampleCityStat.avg_baths = meanAgg
      (((computeAggregations false sampleHTable).filtered_data.filter
        (fun r => decide (r.city.getD "" = sampleCityStat.city))).map HRow.baths)) :=
  ⟨by decide,
    city_summary_reproduces_descriptive_stats false sampleHTable sampleCityStat
      (by decide)⟩

/-- Concrete instantiation of `aggregation_cities_have_min_sales` on
the ten-row sample sheet. -/
theorem aggregation_cities_have_min_sales_witness :
    sampleHRow ∈ (computeAggregations false sampleHTable).filtered_data ∧
    MIN_CITY_SALES ≤ ((sampleHTable.filter (requiredOk false)).filter
      (fun r' => decide (r'.city.getD "" = sampleHRow.city.getD ""))).length :=
  ⟨by decide,
    (aggregation_cities_have_min_sales false sampleHTable).1 sampleHRow (by decide)⟩

/-! ## Best-effort type coercion when loading data (C5)

A sheet/CSV cell is a number, a string, a datetime (encoded as
`y*10000 + m*100 + d`), or missing (NaN/NaT).  Tables are column
oriented: a list of `(column name, cells)` pairs, as the coercion loops
of the scripts operate column by column. -/

/-- One cell of a loaded table. -/
inductive Cell where
  | num (q : Rat)
  | text (s : String)
  | date (e : Int)
  | missing
  deriving DecidableEq, Repr

/-- Digits of a non-empty all-digit character list, as a number. -/
def parseDigits : List Char → Option Nat
  | [] => none
  | cs => cs.foldl
      (fun acc c =>
        match acc, c.isDigit with
        | some n, true => some (n * 10 + (c.toNat - 48))
        | _, _ => none)
      (some 0)

/-- Best-effort numeric parse of a string: optional minus sign, digits,
optionally a decimal point and fraction digits; anything else is not
numeric. -/
def parseNumericString (s : String) : Option Rat :=
  let core : List Char → Option Rat := fun cs =>
    match cs.span Char.isDigit with
    | (intPart, []) => (parseDigits intPart).map (fun n => (n : Rat))
    | (intPart, c :: fracPart) =>
      if c = '.' then
        match parseDigits intPart, parseDigits fracPart with
        | some n, some f =>
          some ((n : Rat) + (f : Rat) / ((10 ^ fracPart.length : Nat) : Rat))
        | _, _ => none
      else none
  match s.data with
  | '-' :: rest => (core rest).map (fun q => -q)
  | cs => core cs

/-- Best-effort ISO date parse "YYYY-MM-DD" with a plausible month and
day, to the `y*10000 + m*100 + d` encoding. -/
def parseDateString (s : String) : Option Int :=
  match s.split (· = '-') with
  | [ys, ms, ds] =>
    match parseDigits ys.data, parseDigits ms.data, parseDigits ds.data with
    | some y, some m, some d =>
      if 1 ≤ m ∧ m ≤ 12 ∧ 1 ≤ d ∧ d ≤ 31 then
        some ((y : Int) * 10000 + m * 100 + d)
      else none
    | _, _, _ => none
  | _ => none

/-- `pd.to_numeric(x, errors="coerce")` on one cell: numbers stay,
numeric strings are parsed, datetimes convert to their numeric
encoding, everything else (and missing) is not coercible. -/
def toNumericCoerce : Cell → Option Rat
  | Cell.num q => some q
  | Cell.text s => parseNumericString s
  | Cell.date e => some ((e : Int) : Rat)
  | Cell.missing => none

/-- `pd.to_datetime(x, errors="coerce")` on one cell: datetimes stay,
date strings are parsed, numbers convert by their integer part,
everything else (and missing) is not coercible. -/
def toDatetimeCoerce : Cell → Option Int
  | Cell.num q => some ⌊q⌋
  | Cell.text s => parseDateString s
  | Cell.date e => some e
  | Cell.missing => none

/-- The cell written back by a numeric coercion: the converted number,
or NaN when the value is not coercible. -/
def toNumericCell (c : Cell) : Cell :=
  match toNumericCoerce c with
  | some q => Cell.num q
  | none => Cell.missing

/-- The cell written back by a datetime coercion: the converted date,
or NaT when the value is not coercible. -/
def toDatetimeCell (c : Cell) : Cell :=
  match toDatetimeCoerce c with
  | some e => Cell.date e
  | none => Cell.missing

/-- `astype(str)` on one cell (missing values become the string
"nan"). -/
def cellToStr : Cell → Cell
  | Cell.num q => Cell.text (toString q)
  | Cell.text s => Cell.text s
  | Cell.date e => Cell.text (toString e)
  | Cell.missing => Cell.text "nan"

/-- `numeric_cols` of `caching-fragments/app.py` lines 32-43. -/
def numericCols : List String :=
  ["beds", "baths", "area", "price", "lotArea", "year", "zestimate",
    "taxAssessedValue", "timeOnZillow", "price/SF"]

/-- Month start of a date cell
(`dt.to_period("M").dt.to_timestamp()`): day set to 1, NaT stays
missing. -/
def monthStartCell : Cell → Cell
  | Cell.date e => Cell.date ((e / 100) * 100 + 1)
  | _ => Cell.missing

/-- The cells of a named column, when the table has it. -/
def getColumn (df : List (String × List Cell)) (name : String) :
    Option (List Cell) :=
  (df.find? (fun c => decide (c.1 = name))).map Prod.snd

/-- The two coercion loops of `preprocess_data`
(`caching-fragments/app.py` lines 44-49): coerce each listed numeric
column that the table has to numbers, then coerce `sold_date` to
datetimes. -/
def preprocessColumns (df : List (String × List Cell)) :
    List (String × List Cell) :=
  (df.map (fun col =>
    if numericCols.contains col.1 then (col.1, col.2.map toNumericCell)
    else col)).map (fun col =>
      if col.1 = "sold_date" then (col.1, col.2.map toDatetimeCell)
      else col)

/-- `preprocess_data` of `caching-fragments/app.py` lines 29-56: run
the coercion loops and derive `sold_year_month` from `sold_date` when
that column is present. -/
def preprocess_data (df : List (String × List Cell)) :
    List (String × List Cell) :=
  match getColumn (preprocessColumns df) "sold_date" with
  | some cells =>
    preprocessColumns df ++ [("sold_year_month", cells.map monthStartCell)]
  | none => preprocessColumns df

/-- `load_csv` of `interactivity/pages/2_Interactivity.py` lines 15-23
(after `pd.read_csv`): parse `date` to datetimes, `sale_price` (the
metric) to numbers, and cast `city` (the category) to strings. -/
def load_csv (df : List (String × List Cell)) : List (String × List Cell) :=
  df.map (fun col =>
    if col.1 = "date" then (col.1, col.2.map toDatetimeCell)
    else if col.1 = "sale_price" then (col.1, col.2.map toNumericCell)
    else if col.1 = "city" then (col.1, col.2.map cellToStr)
    else col)

/-- `num_cols` of `chart-essentials/app.py` line 26. -/
def chartNumCols : List String :=
  ["sale_price", "list_price", "purchase_price", "size", "CDOM",
    "latitude", "longitude", "bds", "bths", "year_built"]

/-- The coercion block of `chart-essentials/app.py` lines 25-30: parse
`date` to datetimes, each of `num_cols` to numbers, and cast `zipcode`
to strings. -/
def chartEssentialsCoerce (df : List (String × List Cell)) :
    List (String × List Cell) :=
  df.map (fun col =>
    if col.1 = "date" then (col.1, col.2.map toDatetimeCell)
    else if chartNumCols.contains col.1 then (col.1, col.2.map toNumericCell)
    else if col.1 = "zipcode" then (col.1, col.2.map cellToStr)
    else col)

theorem preprocessColumns_num (df : List (String × List Cell)) (i : Nat)
    (name : String) (col : List Cell) (h : df[i]? = some (name, col))
    (hn : numericCols.contains name = true) :
    (preprocessColumns df)[i]? = some (name, col.map toNumericCell) := by
  have hne : ¬(name = "sold_date") := by
    intro he; rw [he] at hn; exact absurd hn (by decide)
  have hn2 : name ∈ numericCols := by simpa using hn
  unfold preprocessColumns
  rw [List.getElem?_map, List.getElem?_map, h]
  simp [hn2, hne]

theorem preprocessColumns_date (df : List (String × List Cell)) (i : Nat)
    (name : String) (col : List Cell) (h : df[i]? = some (name, col))
    (hn : name = "sold_date") :
    (preprocessColumns df)[i]? = some (name, col.map toDatetimeCell) := by
  subst hn
  have hnum : "sold_date" ∉ numericCols := by decide
  unfold preprocessColumns
  rw [List.getElem?_map, List.getElem?_map, h]
  simp [hnum]

theorem getElem?_lt_length {α : Type} (l : List α) (i : Nat) (a : α)
    (h : l[i]? = some a) : i < l.length := by
  by_contra hc
  rw [List.getElem?_eq_none (Nat.le_of_not_lt hc)] at h
  cases h

theorem preprocess_data_getElem (df : List (String × List Cell)) (i : Nat)
    (p : String × List Cell) (h : (preprocessColumns df)[i]? = some p) :
    (preprocess_data df)[i]? = some p := by
  have hlen := getElem?_lt_length _ i p h
  unfold preprocess_data
  cases hcol : getColumn (preprocessColumns df) "sold_date" with
  | none => exact h
  | some cells =>
    show (preprocessColumns df ++
      [("sold_year_month", cells.map monthStartCell)])[i]? = some p
    rw [List.getElem?_append_left hlen]
    exact h

/-- C5: For every input table and every cell value, the type-coercion
applied when loading data (string-to-numeric on the listed numeric
columns, string-to-datetime on the date column) never raises: a value
that cannot be coerced becomes a missing value (NaN/NaT) in the
returned table, and all coercible values are converted.  (The coercion
functions are total Lean functions, which models raise-freedom; the
per-cell conjuncts state that coercible cells are converted and
non-coercible cells become missing, and the per-table conjuncts state
that `preprocess_data`, `load_csv` and the chart-essentials block apply
exactly that cell map to their coerced columns.) -/
theorem type_coercion_total_and_best_effort :
    (∀ c : Cell,
      (∃ q, toNumericCoerce c = some q ∧ toNumericCell c = Cell.num q) ∨
      (toNumericCoerce c = none ∧ toNumericCell c = Cell.missing)) ∧
    (∀ c : Cell,
      (∃ e, toDatetimeCoerce c = some e ∧ toDatetimeCell c = Cell.date e) ∨
      (toDatetimeCoerce c = none ∧ toDatetimeCell c = Cell.missing)) ∧
    (∀ (df : List (String × List Cell)) (i : Nat) (name : String)
      (col : List Cell), df[i]? = some (name, col) →
      (numericCols.contains name = true →
        (preprocess_data df)[i]? = some (name, col.map toNumericCell)) ∧
      (name = "sold_date" →
        (preprocess_data df)[i]? = some (name, col.map toDatetimeCell))) ∧
    (∀ (df : List (String × List Cell)) (i : Nat) (name : String)
      (col : List Cell), df[i]? = some (name, col) →
      (name = "date" →
        (load_csv df)[i]? = some (name, col.map toDatetimeCell)) ∧
      (name = "sale_price" →
        (load_csv df)[i]? = some (name, col.map toNumericCell))) ∧
    (∀ (df : List (String × List Cell)) (i : Nat) (name : String)
      (col : List Cell), df[i]? = some (name, col) →
      (name = "date" →
        (chartEssentialsCoerce df)[i]? = some (name, col.map toDatetimeCell)) ∧
      (chartNumCols.contains name = true →
        (chartEssentialsCoerce df)[i]? = some (name, col.map toNumericCell))) := by
  refine ⟨?_, ?_, ?_, ?_, ?_⟩
  · intro c
    cases hq : toNumericCoerce c with
    | some q => exact Or.inl ⟨q, rfl, by unfold toNumericCell; rw [hq]⟩
    | none => exact Or.inr ⟨rfl, by unfold toNumericCell; rw [hq]⟩
  · intro c
    cases he : toDatetimeCoerce c with
    | some e => exact Or.inl ⟨e, rfl, by unfold toDatetimeCell; rw [he]⟩
    | none => exact Or.inr ⟨rfl, by unfold toDatetimeCell; rw [he]⟩
  · intro df i name col h
    exact ⟨fun hn => preprocess_data_getElem df i _ (preprocessColumns_num df i name col h hn),
      fun hn => preprocess_data_getElem df i _ (preprocessColumns_date df i name col h hn)⟩
  · intro df i name col h
    constructor
    · intro hn
      unfold load_csv
      rw [List.getElem?_map, h]
      simp [hn]
    · intro hn
      have hne : ¬(name = "date") := by rw [hn]; decide
      unfold load_csv
      rw [List.getElem?_map, h]
      simp [hn, hne]
  · intro df i name col h
    constructor
    · intro hn
      unfold chartEssentialsCoerce
      rw [List.getElem?_map, h]
      simp [hn]
    · intro hn
      have hne : ¬(name = "date") := by
        intro he; rw [he] at hn; exact absurd hn (by decide)
      have hn2 : name ∈ chartNumCols := by simpa using hn
      unfold chartEssentialsCoerce
      rw [List.getElem?_map, h]
      simp [hn2, hne]

/-- Concrete instantiation of `type_coercion_total_and_best_effort`:
the `price` column of a two-column sheet (a numeric string, a
non-numeric string and a number) is coerced value by value, the
non-coercible string becoming missing. -/
theorem type_coercion_total_and_best_effort_witness :
    ([("price", [Cell.text "12", Cell.text "abc", Cell.num 3]),
      ("sold_date", [Cell.text "2024-01-15", Cell.missing])] :
        List (String × List Cell))[0]? =
      some ("price", [Cell.text "12", Cell.text "abc", Cell.num 3]) ∧
    numericCols.contains "price" = true ∧
    (preprocess_data
      [("price", [Cell.text "12", Cell.text "abc", Cell.num 3]),
        ("sold_date", [Cell.text "2024-01-15", Cell.missing])])[0]? =
      some ("price",
        [Cell.text "12", Cell.text "abc", Cell.num 3].map toNumericCell) :=
  ⟨by decide, by decide,
    ((type_coercion_total_and_best_effort.2.2.1
      [("price", [Cell.text "12", Cell.text "abc", Cell.num 3]),
        ("sold_date", [Cell.text "2024-01-15", Cell.missing])]
      0 "price" [Cell.text "12", Cell.text "abc", Cell.num 3]
      (by decide)).1) (by decide)⟩

/-! ## Error handling around the data-connection read (C3)

Three scripts read from the Google-Sheets connection.  Each script's
behavior from the read onward is a function of the read's outcome
(`Except.error` = the read raised).  The rendered elements before the
read are fixed prefixes. -/

/-- A UI element rendered by a script. -/
inductive Render where
  | errorMsg (s : String)
  | widget (s : String)
  | chart (s : String)
  | table (s : String)
  deriving DecidableEq, Repr

/-- How a script run ends: normally, by `st.stop()`, or by an uncaught
exception propagating out of the script. -/
inductive Term where
  | finished
  | stopped
  | raised (msg : String)
  deriving DecidableEq, Repr

/-- What a script run produced and how it ended. -/
structure Trace where
  out : List Render
  term : Term
  deriving DecidableEq, Repr

/-- Elements `secrets-connecting-data/app.py` renders before its
`conn.read` (title, explanatory sections, the worksheet input; lines
13-153, once the secrets check has passed). -/
def secretsPre : List Render :=
  [Render.widget "title", Render.widget "setup sections",
    Render.widget "worksheet input"]

/-- `secrets-connecting-data/app.py` lines 156-189 as a function of the
read outcome: the read is wrapped in `try/except`, so an exception
renders `st.error(...)` and calls `st.stop()`; otherwise the table, the
download button and the closing notes are rendered. -/
def secretsApp (readResult : Except String (List (String × List Cell))) :
    Trace :=
  match readResult with
  | Except.error e =>
    { out := secretsPre ++
        [Render.errorMsg ("Could not read the Google Sheet: " ++ e)]
      term := Term.stopped }
  | Except.ok _ =>
    { out := secretsPre ++
        [Render.table "sheet data", Render.widget "Download as CSV",
          Render.widget "closing notes"]
      term := Term.finished }

/-- `chart-essentials/app.py` lines 17-22 and onward as a function of
the read outcome: the read (at the very top, nothing rendered before
it) is wrapped in `try/except`, so an exception renders `st.error(...)`
and calls `st.stop()`; otherwise the chart tabs are rendered. -/
def chartEssentialsApp
    (readResult : Except String (List (String × List Cell))) : Trace :=
  match readResult with
  | Except.error e =>
    { out := [Render.errorMsg ("Could not read from Google Sheet: " ++ e)]
      term := Term.stopped }
  | Except.ok _ =>
    { out := [Render.widget "title", Render.widget "chart tabs"]
      term := Term.finished }

/-- Elements `caching-fragments/app.py` renders before its `conn.read`
(counters, title, caption; lines 7-59). -/
def cachingPre : List Render :=
  [Render.widget "title", Render.widget "app runs caption"]

/-- `caching-fragments/app.py` lines 59-62 and onward as a function of
the read outcome: the read is NOT wrapped in `try/except`, so an
exception propagates out of the script uncaught — no error message is
rendered and nothing after the read runs; otherwise the demo sections
are rendered. -/
def cachingFragmentsApp
    (readResult : Except String (List (String × List Cell))) : Trace :=
  match readResult with
  | Except.error e => { out := cachingPre, term := Term.raised e }
  | Except.ok _ =>
    { out := cachingPre ++
        [Render.table "data preview", Render.widget "caching demo",
          Render.chart "aggregation charts", Render.widget "fragment demo"]
      term := Term.finished }

/-- Whether a rendered element is an error message. -/
def Render.isError : Render → Bool
  | Render.errorMsg _ => true
  | _ => false

/-- Counterexample to "every script that reads from the external data
connection displays an error message and halts when the read raises":
in `caching-fragments/app.py` the read is not wrapped in `try/except`,
so on a read exception the script displays no error message and the
exception propagates instead of the script stopping. -/
theorem conn_read_error_handling_counterexample :
    (cachingFragmentsApp (Except.error "boom")).out.all
      (fun r => !r.isError) = true ∧
    (cachingFragmentsApp (Except.error "boom")).term = Term.raised "boom" ∧
    (cachingFragmentsApp (Except.error "boom")).term ≠ Term.stopped := by
  refine ⟨rfl, rfl, ?_⟩
  decide

/-- C3 (amended): The secrets-connecting-data and chart-essentials
scripts wrap the data-connection read in `try/except`: if the read
raises, they display an error message and halt at that point (nothing
after the read is rendered).  The caching-fragments script does not
catch the exception: it propagates uncaught, no error message is
displayed, and nothing after the read runs. -/
theorem conn_read_error_handling_amended :
    (∀ e : String,
      (secretsApp (Except.error e)).out =
        secretsPre ++
          [Render.errorMsg ("Could not read the Google Sheet: " ++ e)] ∧
      (secretsApp (Except.error e)).term = Term.stopped) ∧
    (∀ e : String,
      (chartEssentialsApp (Except.error e)).out =
        [Render.errorMsg ("Could not read from Google Sheet: " ++ e)] ∧
      (chartEssentialsApp (Except.error e)).term = Term.stopped) ∧
    (∀ e : String,
      (cachingFragmentsApp (Except.error e)).out = cachingPre ∧
      (cachingFragmentsApp (Except.error e)).out.all
        (fun r => !r.isError) = true ∧
      (cachingFragmentsApp (Except.error e)).term = Term.raised e) :=
  ⟨fun _ => ⟨rfl, rfl⟩, fun _ => ⟨rfl, rfl⟩, fun _ => ⟨rfl, rfl, rfl⟩⟩

/-! ## No in-place mutation of the source table (C6)

Each filter or aggregation step is modelled as a function returning the
value of the source-table object after the step together with the
step's result: pandas `df.loc[mask].copy()`, `df.copy()` and
`groupby`-aggregation do not write to their receiver, while column
assignment (`df[...] = ...`) does.  The chart-essentials load block
assigns coerced and derived columns into the loaded table itself. -/

/-- The filter step of `2_form_based_filters.py` lines 131-138:
`filtered = df.loc[mask].copy()` reads `df` and writes a fresh copy, so
the source object keeps its value (first component). -/
def formPageFilterStep (df : List Row) (applied_vals : Filters) :
    List Row × List Row :=
  (df, filteredForm df applied_vals)

/-- `_compute_aggregations` as a step on the module-level table
(`caching-fragments/app.py` lines 147-154): it starts from
`data = df.copy()` and never assigns into `df`, so the source object
keeps its value (first component). -/
def aggregationStep (hasYM : Bool) (df : List HRow) :
    List HRow × AggResults :=
  (df, computeAggregations hasYM df)

/-- NaN-propagating subtraction of two cells
(`df["sale_price"] - df["purchase_price"]`). -/
def cellSub : Cell → Cell → Cell
  | Cell.num a, Cell.num b => Cell.num (a - b)
  | _, _ => Cell.missing

/-- `np.where(den > 0, (num - den') / den, nan)` on cells, as used for
`roi_pct` and `discount_pct` (numerator minus denominator, over the
denominator). -/
def ratioDiffCell : Cell → Cell → Cell
  | Cell.num s, Cell.num p =>
    if 0 < p then Cell.num ((s - p) / p) else Cell.missing
  | _, _ => Cell.missing

/-- `np.where(den > 0, num / den, nan)` on cells, as used for
`ppsf`. -/
def ratioCell : Cell → Cell → Cell
  | Cell.num s, Cell.num p =>
    if 0 < p then Cell.num (s / p) else Cell.missing
  | _, _ => Cell.missing

/-- A derived column combining two named columns cell by cell (empty if
either column is absent). -/
def zipColumns (f : Cell → Cell → Cell)
    (df : List (String × List Cell)) (a b : String) : List Cell :=
  match getColumn df a, getColumn df b with
  | some ca, some cb => List.zipWith f ca cb
  | _, _ => []

/-- The load-time preparation of `chart-essentials/app.py` lines 25-36:
the type coercions and the four derived-column assignments
(`df["profit"] = ...`, etc.) all write into the loaded table object;
the function returns that object's value afterwards. -/
def chartEssentialsPrepare (df : List (String × List Cell)) :
    List (String × List Cell) :=
  let d := chartEssentialsCoerce df
  d ++ [("profit", zipColumns cellSub d "sale_price" "purchase_price"),
    ("roi_pct", zipColumns ratioDiffCell d "sale_price" "purchase_price"),
    ("discount_pct", zipColumns ratioDiffCell d "sale_price" "list_price"),
    ("ppsf", zipColumns ratioCell d "sale_price" "size")]

/-- Counterexample to "no operation of the application mutates the
loaded or synthesized source table in place": the chart-essentials load
block leaves the loaded table object with coerced values and four extra
columns — on a concrete one-row sheet the table after lines 25-36
differs from the table as loaded. -/
theorem source_table_never_mutated_counterexample :
    chartEssentialsPrepare
        [("date", [Cell.text "2024-01-02"]), ("sale_price", [Cell.num 10]),
          ("purchase_price", [Cell.num 4]), ("list_price", [Cell.num 12]),
          ("size", [Cell.num 2]), ("zipcode", [Cell.num 94016]),
          ("city", [Cell.text "A"])] ≠
      [("date", [Cell.text "2024-01-02"]), ("sale_price", [Cell.num 10]),
        ("purchase_price", [Cell.num 4]), ("list_price", [Cell.num 12]),
        ("size", [Cell.num 2]), ("zipcode", [Cell.num 94016]),
        ("city", [Cell.text "A"])] := by
  intro h
  have hlen := congrArg List.length h
  simp [chartEssentialsPrepare, chartEssentialsCoerce] at hlen

/-- C6 (amended): The filter and aggregation steps are performed on
copies and leave the source table unchanged — after the form-based
filter step and after the aggregation pipeline the source table holds
exactly the rows, columns and values it had before — but the
chart-essentials script mutates the loaded table in place at load time,
when its type coercions and derived-column assignments (lines 25-36)
write into the loaded table before any filtering. -/
theorem filter_and_aggregation_do_not_mutate_source :
    (∀ (df : List Row) (applied_vals : Filters),
      (formPageFilterStep df applied_vals).1 = df ∧
      (formPageFilterStep df applied_vals).2 = filteredForm df applied_vals) ∧
    (∀ (hasYM : Bool) (df : List HRow),
      (aggregationStep hasYM df).1 = df ∧
      (aggregationStep hasYM df).2 = computeAggregations hasYM df) :=
  ⟨fun _ _ => ⟨rfl, rfl⟩, fun _ _ => ⟨rfl, rfl⟩⟩

end StreamlitTutorial
